import Mathlib

/-!
Shallow embedding of `src/QaseMochaReporter.ts` from the
`general-galactic/qase-mocha-reporter` repository.

The reporter subscribes to five mocha lifecycle events, buffers one record
per completed test, and drives a bounded sequence of remote SDK calls
(project lookup, run creation with a one-shot cleanup-and-retry, bulk result
upload, run completion).  The SDK (`qaseio`) and the mocha host are external
collaborators: every remote call site is modelled by an explicit parameter
carrying the outcome that call would have produced (`Except JsError α`
mirrors an `async` function that either resolves or throws), and the
sequence of outward calls a code path performs is returned as an explicit
trace.  `deasyncPromise` forces each call to complete before the next starts,
so direct sequential composition is a faithful model of the control flow.

JavaScript `throw` is modelled by `Except.error` (or `Option.none` for the
purely local handlers), `undefined` by `Option.none`, and JS strings by
`String`.
-/

deriving instance DecidableEq for Except

/-- Outcome enum for a completed test, `type TestCaseResult` in the source:
`'passed' | 'failed' | 'skipped'`. -/
inductive TestCaseResult
  | passed
  | failed
  | skipped
  deriving DecidableEq, Repr

/-- The part of a mocha `Runnable` that the reporter reads: the three state
predicates `isPassed()`, `isFailed()`, `isPending()`, plus `fullTitle()` and
`duration`. -/
structure MochaTest where
  isPassed : Bool
  isFailed : Bool
  isPending : Bool
  fullTitle : String
  duration : Option Nat
  deriving DecidableEq, Repr

/-- Embedding of `resultForTestCase` (QaseMochaReporter.ts lines 105-114):
checks `isPassed`, then `isFailed`, then `isPending`, and otherwise throws
`new Error('Unknown test case result')` (modelled as `none`). -/
def resultForTestCase (test : MochaTest) : Option TestCaseResult :=
  if test.isPassed then some .passed
  else if test.isFailed then some .failed
  else if test.isPending then some .skipped
  else none

/-- One element of the reporter's `results` buffer:
`{ suiteName?, testCaseTitle, testCaseResult, testCaseDuration? }`. -/
structure BufferedResult where
  suiteName : Option String
  testCaseTitle : String
  testCaseResult : TestCaseResult
  testCaseDuration : Option Nat
  deriving DecidableEq, Repr

/-- The mutable per-run fields of `QaseMochaReporter` that the suite/test
event handlers touch: `currentSuiteName`, `results` and `_indents`.
`_indents` is a JS number that is incremented and decremented, so it is
modelled as an `Int`. -/
structure ReporterState where
  currentSuiteName : Option String
  results : List BufferedResult
  indents : Int
  deriving DecidableEq, Repr

/-- Initial state of a fresh reporter: no suite name, empty buffer,
`_indents = 0`. -/
def initialReporterState : ReporterState :=
  { currentSuiteName := none, results := [], indents := 0 }

/-- The mocha lifecycle events the suite/test handlers receive
(`EVENT_SUITE_BEGIN`, `EVENT_SUITE_END`, `EVENT_TEST_END`); a suite-begin
carries the suite whose `title` the handler reads. -/
inductive MochaEvent
  | suiteBegin (title : String)
  | suiteEnd
  | testEnd (test : MochaTest)
  deriving DecidableEq, Repr

/-- Embedding of `_mochaSuiteBegin` (lines 68-71): increment the indent
counter and overwrite `currentSuiteName` with the suite's title. -/
def mochaSuiteBegin (s : ReporterState) (title : String) : ReporterState :=
  { s with indents := s.indents + 1, currentSuiteName := some title }

/-- Embedding of `_mochaSuiteEnd` (lines 73-76): decrement the indent
counter and reset `currentSuiteName` to `undefined`. -/
def mochaSuiteEnd (s : ReporterState) : ReporterState :=
  { s with indents := s.indents - 1, currentSuiteName := none }

/-- Embedding of `_mochaTestEnd` (lines 78-88): classify the test via
`resultForTestCase` (whose throw aborts the handler before anything is
buffered, modelled as `none`) and push one record onto `results`.  The
`console.log` line has no effect on the state. -/
def mochaTestEnd (s : ReporterState) (test : MochaTest) : Option ReporterState :=
  match resultForTestCase test with
  | none => none
  | some r =>
      some { s with results := s.results ++
        [{ suiteName := s.currentSuiteName
           testCaseTitle := test.fullTitle
           testCaseResult := r
           testCaseDuration := test.duration }] }

/-- Dispatch one lifecycle event to the corresponding handler. -/
def processEvent (s : ReporterState) : MochaEvent → Option ReporterState
  | .suiteBegin title => some (mochaSuiteBegin s title)
  | .suiteEnd => some (mochaSuiteEnd s)
  | .testEnd test => mochaTestEnd s test

/-- Run the handlers over a whole event sequence, stopping at the first
handler that throws. -/
def processEvents (s : ReporterState) : List MochaEvent → Option ReporterState
  | [] => some s
  | e :: es =>
      match processEvent s e with
      | none => none
      | some s2 => processEvents s2 es

/-- Test whether an event is a test-end event. -/
def isTestEnd : MochaEvent → Bool
  | .testEnd _ => true
  | _ => false

/-- Number of test-end events in a sequence. -/
def countTestEnds (es : List MochaEvent) : Nat :=
  (es.filter isTestEnd).length

/-- A test is in one of the three lifecycle states the host reports. -/
def validTest (t : MochaTest) : Bool :=
  t.isPassed || t.isFailed || t.isPending

/-- Every test-end event of the sequence carries a test in one of the three
host lifecycle states. -/
def validEvents (es : List MochaEvent) : Bool :=
  es.all fun e =>
    match e with
    | .testEnd t => validTest t
    | _ => true

/-- Modelled from the spec: fold step for the "name stack" reading of suite
tracking, in which suite-begin pushes the title and suite-end pops it, so
the head is the innermost suite still enclosing the current point of the
run.  This is the comparison definition for the suite-name claim; the source
itself keeps only the single variable `currentSuiteName`. -/
def suiteStackStep (stack : List String) : MochaEvent → List String
  | .suiteBegin title => title :: stack
  | .suiteEnd => stack.tail
  | .testEnd _ => stack

/-- Modelled from the spec: the name stack of still-open suites after a
prefix of the event sequence. -/
def suiteStack (es : List MochaEvent) : List String :=
  es.foldl suiteStackStep []

/-- JS `String.prototype.startsWith` on character lists (pattern first). -/
def jsStartsWith : List Char → List Char → Bool
  | [], _ => true
  | _ :: _, [] => false
  | a :: as, b :: bs => a == b && jsStartsWith as bs

/-- JS `String.prototype.includes` on character lists (pattern first). -/
def jsIncludesChars (pattern : List Char) : List Char → Bool
  | [] => jsStartsWith pattern []
  | c :: cs => jsStartsWith pattern (c :: cs) || jsIncludesChars pattern cs

/-- JS `s.includes(pattern)`. -/
def jsIncludes (s pattern : String) : Bool :=
  jsIncludesChars pattern.data s.data

/-- JS `String.prototype.toLowerCase` (ASCII, which covers every message the
reporter inspects). -/
def jsToLower (s : String) : String :=
  ⟨s.data.map Char.toLower⟩

/-- The error payload object carried by a failed SDK response
(`Record<string, unknown>`), modelled by the one field the reporter reads:
`errorMessage`. -/
structure ErrData where
  errorMessage : Option String
  deriving DecidableEq, Repr

/-- Model of the external `JSON.stringify` applied to `response?.data`
(`undefined` stringifies to the text `undefined`); escaping inside the
message is not modelled. -/
def jsonStringifyErrData : Option ErrData → String
  | none => "undefined"
  | some d =>
      match d.errorMessage with
      | none => "\x7b\x7d"
      | some m => "\x7b\x22errorMessage\x22:\x22" ++ m ++ "\x22\x7d"

/-- The `QaseApiResponse` shape the reporter projects out of an SDK error:
`{ status, statusText, data? }`. -/
structure QaseApiResponse where
  status : Nat
  statusText : String
  data : Option ErrData
  deriving DecidableEq, Repr

/-- A thrown JS value as the reporter observes it: whether it is an `Error`
instance, its `message`, and its `response` property when present. -/
structure JsError where
  isErrorInstance : Bool
  message : String
  response : Option QaseApiResponse
  deriving DecidableEq, Repr

/-- Build the `Error` values the reporter itself constructs with
`new Error(message)`: a genuine `Error` instance with no `response`. -/
def jsNewError (message : String) : JsError :=
  { isErrorInstance := true, message := message, response := none }

/-- Embedding of `extractErrorResponse` (lines 200-212): when the thrown
value is an `Error` instance carrying a `response` property, project out
`{status, statusText, data}`; otherwise re-throw the original value.  (The
declared `| undefined` return type is never produced: every path either
returns a response or throws.) -/
def extractErrorResponse (e : JsError) : Except JsError QaseApiResponse :=
  match e.isErrorInstance, e.response with
  | true, some r => .ok { status := r.status, statusText := r.statusText, data := r.data }
  | _, _ => .error e

/-- Embedding of `isLimitOfActiveRunsError` (lines 189-198): extract the
response (propagating the throw of `extractErrorResponse` for values it
cannot classify), require status 403 and an `errorMessage` field, and test
whether the lower-cased message contains `'limit of active runs'`.  The
`response === undefined` check of the source is unreachable because
`extractErrorResponse` never returns `undefined`. -/
def isLimitOfActiveRunsError (e : JsError) : Except JsError Bool :=
  match extractErrorResponse e with
  | .error e2 => .error e2
  | .ok response =>
      if response.status ≠ 403 then .ok false
      else
        match response.data.bind (·.errorMessage) with
        | none => .ok false
        | some errorMessage =>
            .ok (jsIncludes (jsToLower errorMessage) "limit of active runs")

/-- One entry of `result.data.result.entities` from `runs.getRuns`: the two
fields the reporter reads, `id` and `status_text`. -/
structure QaseRun where
  id : Option Nat
  status_text : Option String
  deriving DecidableEq, Repr

/-- The `result.data.result` payload of `runs.getRuns`: `total` and the
optional `entities` list. -/
structure RunsResult where
  total : Nat
  entities : Option (List QaseRun)
  deriving DecidableEq, Repr

/-- The members of the SDK's `ResultCreateStatusEnum` relevant to this
development: the two the reporter actually sends (`PASSED`, `FAILED`) and
`SKIPPED`, which the enum also offers for skipped tests. -/
inductive ResultCreateStatus
  | PASSED
  | FAILED
  | SKIPPED
  deriving DecidableEq, Repr

/-- One entry of the bulk upload payload (`ResultCreate`), restricted to the
fields the reporter fills in: `status` and the nested
`case: { suite_title, title, time_ms }`. -/
structure ResultCreate where
  status : ResultCreateStatus
  suite_title : Option String
  title : String
  time_ms : Option Nat
  deriving DecidableEq, Repr

/-- The `this.results.map(...)` payload construction of `uploadResults`
(lines 236-245): the status is the ternary
`r.testCaseResult === 'passed' ? PASSED : FAILED`. -/
def qaseResultsFor (results : List BufferedResult) : List ResultCreate :=
  results.map fun r =>
    { status := if r.testCaseResult = .passed then .PASSED else .FAILED
      suite_title := r.suiteName
      title := r.testCaseTitle
      time_ms := r.testCaseDuration }

/-- An outward SDK call, recorded so that theorems can speak about how many
remote operations a code path performs, in which order, and with which bulk
payload. -/
inductive RemoteCall
  | getProject (projectCode : String)
  | createRun (projectCode : String)
  | getRuns (projectCode : String)
  | completeRun (projectCode : String) (runId : Nat)
  | createResultBulk (projectCode : String) (runId : Nat) (results : List ResultCreate)
  deriving DecidableEq, Repr

/-- Test whether a recorded call is a `runs.completeRun` call. -/
def RemoteCall.isCompleteRun : RemoteCall → Bool
  | .completeRun _ _ => true
  | _ => false

/-- Test whether a recorded call is a `runs.createRun` call. -/
def RemoteCall.isCreateRun : RemoteCall → Bool
  | .createRun _ => true
  | _ => false

/-- Embedding of `getRecentActiveTestRuns` (lines 154-169).  The SDK call
`runs.getRuns` is modelled by its outcome `sdk` (`result.data.result`, or the
thrown error).  On success: return `[]` when the payload is `undefined`, has
`total === 0` or no `entities`, and otherwise the entities whose
`status_text === 'active'`.  Any throw is caught, logged, and replaced by a
`new Error` naming the project. -/
def getRecentActiveTestRuns (projectCode : String)
    (sdk : Except JsError (Option RunsResult)) : Except JsError (List QaseRun) :=
  match sdk with
  | .error _ =>
      .error (jsNewError
        ("Couldn\x27t get active test runs for the \x27" ++ projectCode ++ "\x27 project."))
  | .ok none => .ok []
  | .ok (some rr) =>
      if rr.total = 0 then .ok []
      else
        match rr.entities with
        | none => .ok []
        | some entities => .ok (entities.filter fun run => run.status_text == some "active")

/-- Result type of `createTestRun`:
`{ testRunNumber: number } | { error: 'active-run-limit-reached' }`. -/
inductive CreateTestRunResult
  | testRunNumber (n : Nat)
  | activeRunLimitReached
  deriving DecidableEq, Repr

/-- The catch block of `createTestRun` (lines 179-186): when
`isLimitOfActiveRunsError` classifies the thrown value as the active-run
limit, return the tagged value; when it says no, re-throw the original
value; and when it itself throws (a value without a `response`), that throw
propagates. -/
def handleCreateRunError (e : JsError) : Except JsError CreateTestRunResult :=
  match isLimitOfActiveRunsError e with
  | .error e2 => .error e2
  | .ok true => .ok .activeRunLimitReached
  | .ok false => .error e

/-- Embedding of `createTestRun` (lines 171-187).  `sdk` is the outcome of
the one `runs.createRun` call: `result.data.result?.id` on resolution, or
the thrown error.  An `undefined` id raises
`new Error("Couldn't create a qase test run")` inside the `try`, so it runs
through the same catch block as an SDK throw. -/
def createTestRun (sdk : Except JsError (Option Nat)) :
    Except JsError CreateTestRunResult :=
  match sdk with
  | .ok (some id) => .ok (.testRunNumber id)
  | .ok none => handleCreateRunError (jsNewError "Couldn\x27t create a qase test run")
  | .error e => handleCreateRunError e

/-- Embedding of `completeTestRun` (lines 267-270): throw when the run has
no id, otherwise one `runs.completeRun` call whose outcome is
`completeSdk id`.  The first component is the trace of SDK calls made. -/
def completeTestRun (projectCode : String) (completeSdk : Nat → Except JsError Unit)
    (run : QaseRun) : List RemoteCall × Except JsError Unit :=
  match run.id with
  | none => ([], .error (jsNewError "No qase test run id"))
  | some id => ([RemoteCall.completeRun projectCode id], completeSdk id)

/-- The `for (const run of activeRuns)` loop of `completeActiveRuns`
(lines 149-151): complete each run in order, stopping at the first throw. -/
def completeRunsLoop (projectCode : String) (completeSdk : Nat → Except JsError Unit) :
    List QaseRun → List RemoteCall × Except JsError Unit
  | [] => ([], .ok ())
  | run :: rest =>
      let (tr, res) := completeTestRun projectCode completeSdk run
      match res with
      | .error e => (tr, .error e)
      | .ok _ =>
          let (tr2, res2) := completeRunsLoop projectCode completeSdk rest
          (tr ++ tr2, res2)

/-- Embedding of `completeActiveRuns` (lines 145-152): list the recent
active runs (one `runs.getRuns` call), return when there are none, and
otherwise complete each in order.  The early `return` on an empty list and
the empty loop coincide. -/
def completeActiveRuns (projectCode : String)
    (getRunsSdk : Except JsError (Option RunsResult))
    (completeSdk : Nat → Except JsError Unit) : List RemoteCall × Except JsError Unit :=
  match getRecentActiveTestRuns projectCode getRunsSdk with
  | .error e => ([RemoteCall.getRuns projectCode], .error e)
  | .ok activeRuns =>
      let (tr, res) := completeRunsLoop projectCode completeSdk activeRuns
      ([RemoteCall.getRuns projectCode] ++ tr, res)

/-- The fatal error thrown when `qaseTestRunId` is still `undefined` at the
end of `createQaseTestRun` (lines 136-140). -/
def cannotCreateRunError (projectCode : String) : JsError :=
  jsNewError
    ("Couldn\x27t create a qase test run in the \x27" ++ projectCode ++ "\x27 project.")

/-- Embedding of `createQaseTestRun` (lines 116-143), returning the trace of
SDK calls and either the run id stored in `qaseTestRunId` or the thrown
error.  `firstSdk` and `retrySdk` are the outcomes of the at most two
`runs.createRun` calls; `getRunsSdk` and `completeSdk` feed the cleanup
pass.  When the first attempt reports the active-run limit and
`autoCompleteActiveTestRuns` holds, one cleanup pass runs and creation is
retried exactly once; a run id that is still `undefined` afterwards is
fatal. -/
def createQaseTestRun (projectCode : String) (autoCompleteActiveTestRuns : Bool)
    (firstSdk retrySdk : Except JsError (Option Nat))
    (getRunsSdk : Except JsError (Option RunsResult))
    (completeSdk : Nat → Except JsError Unit) : List RemoteCall × Except JsError Nat :=
  match createTestRun firstSdk with
  | .error e => ([RemoteCall.createRun projectCode], .error e)
  | .ok (.testRunNumber n) => ([RemoteCall.createRun projectCode], .ok n)
  | .ok .activeRunLimitReached =>
      if autoCompleteActiveTestRuns then
        let (ctr, cres) := completeActiveRuns projectCode getRunsSdk completeSdk
        match cres with
        | .error e => (RemoteCall.createRun projectCode :: ctr, .error e)
        | .ok _ =>
            let trace := RemoteCall.createRun projectCode :: ctr ++ [RemoteCall.createRun projectCode]
            match createTestRun retrySdk with
            | .error e => (trace, .error e)
            | .ok (.testRunNumber n) => (trace, .ok n)
            | .ok .activeRunLimitReached => (trace, .error (cannotCreateRunError projectCode))
      else
        ([RemoteCall.createRun projectCode], .error (cannotCreateRunError projectCode))

/-- The part of a qase `Project` payload the reporter can observe; only its
presence (versus `undefined`) is ever inspected. -/
structure QaseProject where
  title : String
  deriving DecidableEq, Repr

/-- Embedding of `getProject` (lines 222-231).  `sdk` is the outcome of the
one `projects.getProject` call (`result.data.result`, or the thrown error).
A classified 404 response means "project does not exist" (`undefined`); any
other classified error is re-thrown as the original error, and a value
`extractErrorResponse` cannot classify propagates through its own throw. -/
def getProject (sdk : Except JsError (Option QaseProject)) :
    Except JsError (Option QaseProject) :=
  match sdk with
  | .ok p => .ok p
  | .error e =>
      match extractErrorResponse e with
      | .error e2 => .error e2
      | .ok response => if response.status = 404 then .ok none else .error e

/-- The fatal error of `ensureQaseProjectExists` (lines 217-218). -/
def missingProjectError (projectCode : String) : JsError :=
  jsNewError
    ("You must first create a Qase project in their UI with a project code of: \x27"
      ++ projectCode ++ "\x27")

/-- Embedding of `ensureQaseProjectExists` (lines 214-220): look the project
up and throw when it is `undefined`. -/
def ensureQaseProjectExists (projectCode : String)
    (sdk : Except JsError (Option QaseProject)) : Except JsError Unit :=
  match getProject sdk with
  | .error e => .error e
  | .ok none => .error (missingProjectError projectCode)
  | .ok (some _) => .ok ()

/-- Embedding of `_mochaBegin` (lines 63-66): `ensureQaseProjectExists`
first (one `projects.getProject` call), then `createQaseTestRun` with its
default `autoCompleteActiveTestRuns = true`; each is forced to completion by
`deasyncPromise`, and a throw in the first prevents the second. -/
def mochaBegin (projectCode : String)
    (projectSdk : Except JsError (Option QaseProject))
    (firstSdk retrySdk : Except JsError (Option Nat))
    (getRunsSdk : Except JsError (Option RunsResult))
    (completeSdk : Nat → Except JsError Unit) : List RemoteCall × Except JsError Nat :=
  match ensureQaseProjectExists projectCode projectSdk with
  | .error e => ([RemoteCall.getProject projectCode], .error e)
  | .ok _ =>
      let (tr, res) := createQaseTestRun projectCode true firstSdk retrySdk getRunsSdk completeSdk
      (RemoteCall.getProject projectCode :: tr, res)

/-- The message of the error thrown by the catch block of `uploadResults`
(line 256). -/
def uploadErrorMessage (response : QaseApiResponse) : String :=
  "Error uploading qase test results: status=" ++ toString response.status
    ++ "; data=" ++ jsonStringifyErrData response.data

/-- Embedding of `uploadResults` (lines 233-260): throw when
`qaseTestRunId` is `undefined`; otherwise build the payload with
`qaseResultsFor` and make the one `results.createResultBulk` call, whose
outcome is `bulkSdk`.  A throw is run through `extractErrorResponse` (whose
own throw re-raises the original value), logged, and replaced by a
`new Error` carrying the status and stringified data. -/
def uploadResults (projectCode : String) (qaseTestRunId : Option Nat)
    (results : List BufferedResult) (bulkSdk : Except JsError Unit) :
    List RemoteCall × Except JsError Unit :=
  match qaseTestRunId with
  | none => ([], .error (jsNewError "No qase test run id"))
  | some runId =>
      let call := RemoteCall.createResultBulk projectCode runId (qaseResultsFor results)
      match bulkSdk with
      | .ok _ => ([call], .ok ())
      | .error e =>
          match extractErrorResponse e with
          | .error e2 => ([call], .error e2)
          | .ok response => ([call], .error (jsNewError (uploadErrorMessage response)))

/-- Embedding of `endCurrentTestRun` (lines 262-265): throw when
`qaseTestRunId` is `undefined`, otherwise one `runs.completeRun` call with
outcome `completeSdk`. -/
def endCurrentTestRun (projectCode : String) (qaseTestRunId : Option Nat)
    (completeSdk : Except JsError Unit) : List RemoteCall × Except JsError Unit :=
  match qaseTestRunId with
  | none => ([], .error (jsNewError "No qase test run id"))
  | some runId => ([RemoteCall.completeRun projectCode runId], completeSdk)

/-- Embedding of the `try/catch/finally` of `_mochaRunEnd` (lines 90-103):
`uploadResults` runs first; the `finally` block then runs
`endCurrentTestRun` unconditionally.  Per JS semantics a throw from the
`finally` block replaces the pending one; otherwise the catch block
re-throws the upload error unchanged. -/
def mochaRunEnd (projectCode : String) (qaseTestRunId : Option Nat)
    (results : List BufferedResult) (bulkSdk completeSdk : Except JsError Unit) :
    List RemoteCall × Except JsError Unit :=
  let upload := uploadResults projectCode qaseTestRunId results bulkSdk
  let ending := endCurrentTestRun projectCode qaseTestRunId completeSdk
  (upload.1 ++ ending.1,
    match ending.2 with
    | .error e2 => .error e2
    | .ok _ => upload.2)

/-- The fields of `runner.stats` the summary line reads (mocha counts a
passed test in `passes`, a failed one in `failures`, and a skipped one in
`pending`). -/
structure MochaStats where
  passes : Nat
  failures : Nat
  pending : Nat
  deriving DecidableEq, Repr

/-- The final console line of `_mochaRunEnd` (line 101):
`end: ${stats.passes}/${stats.passes + stats.failures} ok`. -/
def summaryLine (stats : MochaStats) : String :=
  "end: " ++ toString stats.passes ++ "/"
    ++ toString (stats.passes + stats.failures) ++ " ok"

/-- JS `Array(len).join(sep)`: `len` empty slots joined with the separator
between them, i.e. `max(len-1,0)` copies of `sep`; a negative length throws
a `RangeError` (modelled as `none`). -/
def jsArrayJoin (len : Int) (sep : String) : Option String :=
  if len < 0 then none
  else some (String.intercalate sep (List.replicate len.toNat ""))

/-- Embedding of `indent` (lines 272-274): `Array(this._indents).join('  ')`. -/
def indent (indents : Int) : Option String :=
  jsArrayJoin indents "  "

/-! Theorems. -/

theorem string_join_cons (s : String) (l : List String) :
    String.join (s :: l) = s ++ String.join l := by
  rw [String.join_eq, String.join_eq]
  cases s with
  | mk dat =>
      show String.mk _ = String.append _ _
      simp [String.append]

theorem intercalate_go_replicate (sep : String) (n : Nat) :
    ∀ acc : String, String.intercalate.go acc sep (List.replicate n "")
      = acc ++ String.join (List.replicate n sep) := by
  induction n with
  | zero =>
      intro acc
      simp [String.intercalate.go, String.join]
  | succ n ih =>
      intro acc
      rw [List.replicate_succ]
      show String.intercalate.go (acc ++ sep ++ "") sep (List.replicate n "") = _
      rw [String.append_empty, ih (acc ++ sep), List.replicate_succ, string_join_cons,
        ← String.append_assoc]

theorem intercalate_replicate_empty (sep : String) (n : Nat) :
    String.intercalate sep (List.replicate n "")
      = String.join (List.replicate (n - 1) sep) := by
  cases n with
  | zero => simp [String.intercalate, String.join]
  | succ n =>
      rw [List.replicate_succ]
      show String.intercalate.go "" sep (List.replicate n "") = _
      rw [intercalate_go_replicate, String.empty_append]
      rfl

/-- C10: for every suite depth `d` maintained by the indent counter, the
per-test indentation string `Array(d).join('  ')` is `max(d - 1, 0)` copies
of two spaces; in particular depth 1 (a single enclosing suite) yields the
empty indentation. -/
theorem c10_indent_formula :
    (∀ d : Nat, indent (d : Int) = some (String.join (List.replicate (d - 1) "  "))) ∧
    indent 1 = some "" ∧ indent 2 = some "  " := by
  refine ⟨?_, by decide, by decide⟩
  intro d
  have hnonneg : ¬ ((d : Int) < 0) := by exact_mod_cast Int.not_lt.mpr (Int.ofNat_nonneg d)
  simp only [indent, jsArrayJoin, if_neg hnonneg, Int.toNat_natCast]
  rw [intercalate_replicate_empty]

/-- C2: the outcome classifier is total over the three host lifecycle
states: a test in the passed state maps to `passed`, in the failed state to
`failed`, in the pending state to `skipped`, and a test in none of the
three states makes the classifier throw instead of returning a value. -/
theorem c2_classifier_total (t : MochaTest) :
    (t.isPassed = true ∧ t.isFailed = false ∧ t.isPending = false →
      resultForTestCase t = some .passed) ∧
    (t.isPassed = false ∧ t.isFailed = true ∧ t.isPending = false →
      resultForTestCase t = some .failed) ∧
    (t.isPassed = false ∧ t.isFailed = false ∧ t.isPending = true →
      resultForTestCase t = some .skipped) ∧
    (t.isPassed = false ∧ t.isFailed = false ∧ t.isPending = false →
      resultForTestCase t = none) := by
  refine ⟨?_, ?_, ?_, ?_⟩ <;>
    · rintro ⟨h1, h2, h3⟩
      simp [resultForTestCase, h1, h2, h3]

/-- Witness for C2 at four concrete tests, one per lifecycle case. -/
theorem c2_classifier_total_witness :
    resultForTestCase ⟨true, false, false, "a", none⟩ = some .passed ∧
    resultForTestCase ⟨false, true, false, "b", some 1⟩ = some .failed ∧
    resultForTestCase ⟨false, false, true, "c", none⟩ = some .skipped ∧
    resultForTestCase ⟨false, false, false, "d", none⟩ = none :=
  ⟨(c2_classifier_total ⟨true, false, false, "a", none⟩).1 (by decide),
   (c2_classifier_total ⟨false, true, false, "b", some 1⟩).2.1 (by decide),
   (c2_classifier_total ⟨false, false, true, "c", none⟩).2.2.1 (by decide),
   (c2_classifier_total ⟨false, false, false, "d", none⟩).2.2.2 (by decide)⟩

/-- C7 counterexample: with 2 passed and 1 skipped test the host statistics
are `passes = 2`, `failures = 0`, `pending = 1`, so the printed summary line
is `end: 2/2 ok`; it neither equals nor contains the claimed `2/3 ok`. -/
theorem c7_counterexample :
    summaryLine { passes := 2, failures := 0, pending := 1 } = "end: 2/2 ok" ∧
    "end: 2/2 ok" ≠ "2/3 ok" ∧
    jsIncludes "end: 2/2 ok" "2/3 ok" = false := by
  refine ⟨by decide, by decide, by decide⟩

/-- C7 amended: the summary line reports passes over passes-plus-failures
(skipped tests never enter the denominator), so the run with 2 passed and 1
skipped test prints `end: 2/2 ok`; `2/3` would require 2 passes and 1
failure. -/
theorem c7_amended_summary (stats : MochaStats) :
    summaryLine stats
      = summaryLine { passes := stats.passes, failures := stats.failures, pending := 0 } ∧
    summaryLine { passes := 2, failures := 0, pending := 1 } = "end: 2/2 ok" ∧
    summaryLine { passes := 2, failures := 1, pending := 0 } = "end: 2/3 ok" :=
  ⟨rfl, by decide, by decide⟩

theorem validTest_resultForTestCase {t : MochaTest} (h : validTest t = true) :
    ∃ r, resultForTestCase t = some r := by
  unfold validTest at h
  unfold resultForTestCase
  rcases hp : t.isPassed with _ | _
  · rcases hf : t.isFailed with _ | _
    · rcases hpe : t.isPending with _ | _
      · rw [hp, hf, hpe] at h
        simp at h
      · exact ⟨.skipped, by simp⟩
    · exact ⟨.failed, by simp⟩
  · exact ⟨.passed, by simp⟩

theorem processEvents_valid_length (es : List MochaEvent) :
    ∀ s : ReporterState, validEvents es = true →
      ∃ s2, processEvents s es = some s2 ∧
        s2.results.length = s.results.length + countTestEnds es := by
  induction es with
  | nil =>
      intro s _
      exact ⟨s, rfl, by simp [countTestEnds]⟩
  | cons e es ih =>
      intro s h
      rw [validEvents, List.all_cons, Bool.and_eq_true] at h
      obtain ⟨he, hes⟩ := h
      cases e with
      | suiteBegin title =>
          obtain ⟨s2, h2, h3⟩ := ih (mochaSuiteBegin s title) hes
          refine ⟨s2, ?_, ?_⟩
          · simpa [processEvents, processEvent] using h2
          · simpa [countTestEnds, List.filter, isTestEnd, mochaSuiteBegin] using h3
      | suiteEnd =>
          obtain ⟨s2, h2, h3⟩ := ih (mochaSuiteEnd s) hes
          refine ⟨s2, ?_, ?_⟩
          · simpa [processEvents, processEvent] using h2
          · simpa [countTestEnds, List.filter, isTestEnd, mochaSuiteEnd] using h3
      | testEnd t =>
          obtain ⟨r, hr⟩ := validTest_resultForTestCase he
          obtain ⟨s2, h2, h3⟩ := ih _ hes
          refine ⟨s2, ?_, ?_⟩
          · simp only [processEvents, processEvent, mochaTestEnd, hr]
            exact h2
          · rw [h3]
            simp [countTestEnds, List.filter, isTestEnd, mochaTestEnd, hr]
            omega

/-- C6: on every lifecycle sequence whose test-end events carry tests in one
of the three host states, each test-end event appends exactly one record to
the buffer, and at run-end the buffered-result count equals the number of
test-end events seen. -/
theorem c6_one_record_per_test_end :
    (∀ (s : ReporterState) (t : MochaTest) (s2 : ReporterState),
      mochaTestEnd s t = some s2 → s2.results.length = s.results.length + 1) ∧
    (∀ es : List MochaEvent, validEvents es = true →
      ∃ s2, processEvents initialReporterState es = some s2 ∧
        s2.results.length = countTestEnds es) := by
  constructor
  · intro s t s2 h
    unfold mochaTestEnd at h
    rcases hr : resultForTestCase t with _ | r
    · rw [hr] at h
      exact absurd h (by simp)
    · rw [hr] at h
      cases h
      simp
  · intro es h
    obtain ⟨s2, h2, h3⟩ := processEvents_valid_length es initialReporterState h
    exact ⟨s2, h2, by simpa [initialReporterState] using h3⟩

/-- Witness for C6: a concrete run of one suite with a passed, a failed and
a pending test buffers exactly three records. -/
theorem c6_one_record_per_test_end_witness :
    (mochaTestEnd initialReporterState ⟨true, false, false, "w", none⟩
        = some { currentSuiteName := none,
                 results := [⟨none, "w", .passed, none⟩], indents := 0 } ∧
      ({ currentSuiteName := none, results := [⟨none, "w", .passed, none⟩],
         indents := 0 } : ReporterState).results.length
        = initialReporterState.results.length + 1) ∧
    (validEvents
        [.suiteBegin "s", .testEnd ⟨true, false, false, "t1", some 2⟩,
         .testEnd ⟨false, true, false, "t2", none⟩,
         .testEnd ⟨false, false, true, "t3", none⟩, .suiteEnd] = true ∧
      ∃ s2, processEvents initialReporterState
          [.suiteBegin "s", .testEnd ⟨true, false, false, "t1", some 2⟩,
           .testEnd ⟨false, true, false, "t2", none⟩,
           .testEnd ⟨false, false, true, "t3", none⟩, .suiteEnd] = some s2 ∧
        s2.results.length = countTestEnds
          [.suiteBegin "s", .testEnd ⟨true, false, false, "t1", some 2⟩,
           .testEnd ⟨false, true, false, "t2", none⟩,
           .testEnd ⟨false, false, true, "t3", none⟩, .suiteEnd]) :=
  ⟨⟨by decide, c6_one_record_per_test_end.1 initialReporterState
      ⟨true, false, false, "w", none⟩ _ (by decide)⟩,
   by decide, c6_one_record_per_test_end.2 _ (by decide)⟩

/-- C9 counterexample: in the run
`suite "outer" begins; suite "inner" begins and ends; a test ends`, the
innermost suite still enclosing the test is `"outer"` (the spec-side name
stack is `["outer"]`), yet the reporter buffers the test with no suite name
at all, because `_mochaSuiteEnd` resets `currentSuiteName` to `undefined`
unconditionally. -/
theorem c9_counterexample :
    (processEvents initialReporterState
        [.suiteBegin "outer", .suiteBegin "inner", .suiteEnd,
         .testEnd ⟨true, false, false, "outer test", some 5⟩]).map
      (fun s => s.results.map (fun r => r.suiteName)) = some [none] ∧
    suiteStack [.suiteBegin "outer", .suiteBegin "inner", .suiteEnd] = ["outer"] ∧
    (none : Option String) ≠ some "outer" := by
  refine ⟨by decide, by decide, by decide⟩

/-- C9 amended: the current suite name is a single variable rather than a
name stack: suite-begin overwrites it with that suite's title, any suite-end
resets it to `undefined`, and each test-end buffers the variable's value at
that moment — so a test that ends inside an outer suite after a nested
sibling suite has ended is buffered with no suite name, not with the outer
suite's title. -/
theorem c9_amended_suite_name_variable :
    (∀ (s : ReporterState) (title : String),
      (mochaSuiteBegin s title).currentSuiteName = some title) ∧
    (∀ s : ReporterState, (mochaSuiteEnd s).currentSuiteName = none) ∧
    (∀ (s : ReporterState) (t : MochaTest) (s2 : ReporterState),
      mochaTestEnd s t = some s2 →
        s2.results.map (fun r => r.suiteName)
          = s.results.map (fun r => r.suiteName) ++ [s.currentSuiteName]) := by
  refine ⟨fun s title => rfl, fun s => rfl, fun s t s2 h => ?_⟩
  unfold mochaTestEnd at h
  rcases hr : resultForTestCase t with _ | r
  · rw [hr] at h
    exact absurd h (by simp)
  · rw [hr] at h
    cases h
    simp

/-- Witness for C9 amended, at the state reached after the nested sibling
suite of the counterexample run has ended. -/
theorem c9_amended_suite_name_variable_witness :
    (mochaSuiteBegin initialReporterState "outer").currentSuiteName = some "outer" ∧
    (mochaSuiteEnd (mochaSuiteBegin (mochaSuiteBegin initialReporterState "outer")
        "inner")).currentSuiteName = none ∧
    (ReporterState.mk none [BufferedResult.mk none "outer test" .passed (some 5)]
        1).results.map (fun r => r.suiteName)
      = (ReporterState.mk none [] 1).results.map (fun r => r.suiteName)
        ++ [(ReporterState.mk none [] 1).currentSuiteName] :=
  ⟨c9_amended_suite_name_variable.1 initialReporterState "outer",
   c9_amended_suite_name_variable.2.1 _,
   c9_amended_suite_name_variable.2.2 (ReporterState.mk none [] 1)
     (MochaTest.mk true false false "outer test" (some 5))
     (ReporterState.mk none [BufferedResult.mk none "outer test" .passed (some 5)] 1)
     (by decide)⟩

/-- Demonstration run for the upload-status claim: one suite with two
passing tests and one pending test, exactly the spec's example scenario. -/
def c1Events : List MochaEvent :=
  [.suiteBegin "suite",
   .testEnd ⟨true, false, false, "t1", some 3⟩,
   .testEnd ⟨true, false, false, "t2", some 4⟩,
   .testEnd ⟨false, false, true, "t3", none⟩]

/-- The buffer the reporter holds at run-end of the demonstration run. -/
def c1Buffer : List BufferedResult :=
  [⟨some "suite", "t1", .passed, some 3⟩,
   ⟨some "suite", "t2", .passed, some 4⟩,
   ⟨some "suite", "t3", .skipped, none⟩]

/-- C1, evaluated at the failing input: the demonstration run buffers
outcomes `[passed, passed, skipped]` and performs a single bulk upload with
exactly 3 entries, but the statuses sent are `[PASSED, PASSED, FAILED]` —
the entry buffered as `skipped` reaches the remote service as `FAILED`,
because the payload ternary maps every non-passed outcome to `FAILED`. -/
theorem c1_skipped_uploaded_as_failed :
    (processEvents initialReporterState c1Events).map (fun s => s.results)
      = some c1Buffer ∧
    c1Buffer.map (fun r => r.testCaseResult) = [.passed, .passed, .skipped] ∧
    (uploadResults "PRJ" (some 7) c1Buffer (.ok ())).1
      = [RemoteCall.createResultBulk "PRJ" 7 (qaseResultsFor c1Buffer)] ∧
    (qaseResultsFor c1Buffer).map (fun r => r.status) = [.PASSED, .PASSED, .FAILED] ∧
    ([ResultCreateStatus.PASSED, .PASSED, .FAILED]
      ≠ [ResultCreateStatus.PASSED, .PASSED, .SKIPPED]) := by
  refine ⟨by decide, by decide, by decide, by decide, by decide⟩

/-- C3: for a run whose id was created, run completion is invoked exactly
once by `_mochaRunEnd` whatever the bulk upload does, and when the upload
throws, the thrown error is re-thrown by the catch block while the `finally`
block still makes the completion call. -/
theorem c3_completion_always_runs (projectCode : String) (runId : Nat)
    (results : List BufferedResult) (bulkSdk completeSdk : Except JsError Unit) :
    (mochaRunEnd projectCode (some runId) results bulkSdk completeSdk).1.filter
        RemoteCall.isCompleteRun = [RemoteCall.completeRun projectCode runId] ∧
    (∀ e : JsError,
      (uploadResults projectCode (some runId) results bulkSdk).2 = .error e →
      completeSdk = .ok () →
      (mochaRunEnd projectCode (some runId) results bulkSdk completeSdk).2 = .error e) := by
  constructor
  · cases bulkSdk with
    | ok u =>
        cases completeSdk with
        | ok v =>
            simp [mochaRunEnd, uploadResults, endCurrentTestRun,
              List.filter, RemoteCall.isCompleteRun]
        | error e2 =>
            simp [mochaRunEnd, uploadResults, endCurrentTestRun,
              List.filter, RemoteCall.isCompleteRun]
    | error e =>
        rcases hx : extractErrorResponse e with e2 | resp <;>
          cases completeSdk <;>
            simp [mochaRunEnd, uploadResults, endCurrentTestRun, hx,
              List.filter, RemoteCall.isCompleteRun]
  · intro e he hc
    subst hc
    simp only [mochaRunEnd, endCurrentTestRun, he]

/-- Witness for C3: a concrete failing upload (an SDK throw with a 500
response) still leads to the one completion call, and the wrapped upload
error is re-thrown. -/
theorem c3_completion_always_runs_witness :
    ((mochaRunEnd "PRJ" (some 7) []
        (.error (JsError.mk true "boom" (some (QaseApiResponse.mk 500 "ISE" none))))
        (.ok ())).1.filter RemoteCall.isCompleteRun
      = [RemoteCall.completeRun "PRJ" 7]) ∧
    ((uploadResults "PRJ" (some 7) []
        (.error (JsError.mk true "boom" (some (QaseApiResponse.mk 500 "ISE" none))))).2
      = .error (jsNewError
          "Error uploading qase test results: status=500; data=undefined") ∧
      (mochaRunEnd "PRJ" (some 7) []
        (.error (JsError.mk true "boom" (some (QaseApiResponse.mk 500 "ISE" none))))
        (.ok ())).2
      = .error (jsNewError
          "Error uploading qase test results: status=500; data=undefined")) :=
  ⟨(c3_completion_always_runs "PRJ" 7 []
      (.error (JsError.mk true "boom" (some (QaseApiResponse.mk 500 "ISE" none))))
      (.ok ())).1,
   by decide,
   (c3_completion_always_runs "PRJ" 7 []
      (.error (JsError.mk true "boom" (some (QaseApiResponse.mk 500 "ISE" none))))
      (.ok ())).2 _ (by decide) rfl⟩

/-- C5: when the project lookup of `_mochaBegin` throws with an HTTP 404
response, the reporter performs no `createRun` call at all and halts with
the fatal "create the project first" error before any run is created. -/
theorem c5_missing_project_halts (projectCode : String) (e : JsError)
    (resp : QaseApiResponse)
    (firstSdk retrySdk : Except JsError (Option Nat))
    (getRunsSdk : Except JsError (Option RunsResult))
    (completeSdk : Nat → Except JsError Unit)
    (hInst : e.isErrorInstance = true) (hResp : e.response = some resp)
    (h404 : resp.status = 404) :
    mochaBegin projectCode (.error e) firstSdk retrySdk getRunsSdk completeSdk
      = ([RemoteCall.getProject projectCode],
         .error (missingProjectError projectCode)) ∧
    (mochaBegin projectCode (.error e) firstSdk retrySdk getRunsSdk
        completeSdk).1.filter RemoteCall.isCreateRun = [] := by
  have hbegin : mochaBegin projectCode (.error e) firstSdk retrySdk getRunsSdk completeSdk
      = ([RemoteCall.getProject projectCode], .error (missingProjectError projectCode)) := by
    simp [mochaBegin, ensureQaseProjectExists, getProject, extractErrorResponse,
      hInst, hResp, h404]
  exact ⟨hbegin, by rw [hbegin]; rfl⟩

/-- Witness for C5 at a concrete 404 error. -/
theorem c5_missing_project_halts_witness :
    ((JsError.mk true "Request failed with status code 404"
        (some (QaseApiResponse.mk 404 "Not Found" none))).isErrorInstance = true) ∧
    mochaBegin "PRJ"
        (.error (JsError.mk true "Request failed with status code 404"
          (some (QaseApiResponse.mk 404 "Not Found" none))))
        (.ok (some 1)) (.ok (some 1)) (.ok none) (fun _ => .ok ())
      = ([RemoteCall.getProject "PRJ"], .error (missingProjectError "PRJ")) :=
  ⟨rfl,
   (c5_missing_project_halts "PRJ"
      (JsError.mk true "Request failed with status code 404"
        (some (QaseApiResponse.mk 404 "Not Found" none)))
      (QaseApiResponse.mk 404 "Not Found" none)
      (.ok (some 1)) (.ok (some 1)) (.ok none) (fun _ => .ok ())
      rfl rfl rfl).1⟩

theorem completeRunsLoop_all_ok (projectCode : String)
    (completeSdk : Nat → Except JsError Unit)
    (hOk : ∀ id, completeSdk id = .ok ()) :
    ∀ runs : List QaseRun, runs.all (fun r => r.id.isSome) = true →
      completeRunsLoop projectCode completeSdk runs
        = (runs.filterMap (fun r => r.id.map (RemoteCall.completeRun projectCode)),
           .ok ()) := by
  intro runs
  induction runs with
  | nil => intro _; rfl
  | cons r rest ih =>
      intro h
      rw [List.all_cons, Bool.and_eq_true] at h
      obtain ⟨hr, hrest⟩ := h
      rcases hid : r.id with _ | id
      · rw [hid] at hr
        simp at hr
      · simp [completeRunsLoop, completeTestRun, hid, hOk id, ih hrest,
          List.filterMap_cons]

theorem filter_isCreateRun_completeRuns (projectCode : String) (l : List QaseRun) :
    (l.filterMap fun r => r.id.map (RemoteCall.completeRun projectCode)).filter
      RemoteCall.isCreateRun = [] := by
  induction l with
  | nil => rfl
  | cons r rest ih =>
      rcases hid : r.id with _ | id <;>
        simp [List.filterMap_cons, hid, ih, List.filter, RemoteCall.isCreateRun]

/-- C4: when the first run-creation attempt reports the active-run-limit
condition (an HTTP 403 whose message contains `limit of active runs`
case-insensitively), the reporter performs exactly one cleanup pass — one
active-run listing followed by one completion call for every currently
active run — then exactly one retry of run creation (two `createRun` calls
in total), and any retry outcome that yields no run id makes
`createQaseTestRun` throw. -/
theorem c4_limit_one_cleanup_one_retry (projectCode : String) (e : JsError)
    (retrySdk : Except JsError (Option Nat)) (rr : RunsResult)
    (runs : List QaseRun) (completeSdk : Nat → Except JsError Unit)
    (hLimit : isLimitOfActiveRunsError e = .ok true)
    (hEnt : rr.entities = some runs) (hTot : rr.total ≠ 0)
    (hIds : (runs.filter fun r => r.status_text == some "active").all
        (fun r => r.id.isSome) = true)
    (hOk : ∀ id, completeSdk id = .ok ()) :
    (createQaseTestRun projectCode true (.error e) retrySdk (.ok (some rr))
        completeSdk).1
      = RemoteCall.createRun projectCode
        :: RemoteCall.getRuns projectCode
        :: ((runs.filter fun r => r.status_text == some "active").filterMap
              fun r => r.id.map (RemoteCall.completeRun projectCode))
        ++ [RemoteCall.createRun projectCode] ∧
    ((createQaseTestRun projectCode true (.error e) retrySdk (.ok (some rr))
        completeSdk).1.filter RemoteCall.isCreateRun).length = 2 ∧
    ((∀ id : Nat, retrySdk ≠ .ok (some id)) →
      ∃ e2, (createQaseTestRun projectCode true (.error e) retrySdk (.ok (some rr))
        completeSdk).2 = .error e2) := by
  have h1 : createTestRun (.error e) = .ok .activeRunLimitReached := by
    simp [createTestRun, handleCreateRunError, hLimit]
  have h2 : getRecentActiveTestRuns projectCode (.ok (some rr))
      = .ok (runs.filter fun r => r.status_text == some "active") := by
    simp [getRecentActiveTestRuns, hTot, hEnt]
  have h3 := completeRunsLoop_all_ok projectCode completeSdk hOk _ hIds
  have h4 : completeActiveRuns projectCode (.ok (some rr)) completeSdk
      = (RemoteCall.getRuns projectCode
          :: ((runs.filter fun r => r.status_text == some "active").filterMap
                fun r => r.id.map (RemoteCall.completeRun projectCode)),
         .ok ()) := by
    simp [completeActiveRuns, h2, h3]
  have htrace : (createQaseTestRun projectCode true (.error e) retrySdk
      (.ok (some rr)) completeSdk).1
      = RemoteCall.createRun projectCode
        :: RemoteCall.getRuns projectCode
        :: ((runs.filter fun r => r.status_text == some "active").filterMap
              fun r => r.id.map (RemoteCall.completeRun projectCode))
        ++ [RemoteCall.createRun projectCode] := by
    rcases hR : createTestRun retrySdk with e2 | cr
    · simp [createQaseTestRun, h1, h4, hR]
    · cases cr <;> simp [createQaseTestRun, h1, h4, hR]
  refine ⟨htrace, ?_, ?_⟩
  · rw [htrace]
    simp [List.filter_append, List.filter, RemoteCall.isCreateRun,
      filter_isCreateRun_completeRuns]
  · intro hNoId
    rcases hRy : retrySdk with e2 | oid
    · rcases hL2 : isLimitOfActiveRunsError e2 with e3 | b
      · exact ⟨e3, by simp [createQaseTestRun, h1, h4, createTestRun,
          handleCreateRunError, hL2, hLimit]⟩
      · cases b
        · exact ⟨e2, by simp [createQaseTestRun, h1, h4, createTestRun,
            handleCreateRunError, hL2, hLimit]⟩
        · exact ⟨cannotCreateRunError projectCode,
            by simp [createQaseTestRun, h1, h4, createTestRun,
              handleCreateRunError, hL2, hLimit]⟩
    · rcases oid with _ | id
      · refine ⟨jsNewError "Couldn\x27t create a qase test run", ?_⟩
        have h5 : createTestRun (.ok none)
            = .error (jsNewError "Couldn\x27t create a qase test run") := rfl
        simp [createQaseTestRun, h1, h4, h5]
      · exact absurd hRy (hNoId id)

/-- Concrete 403 active-run-limit error used to witness the cleanup-and-retry
path. -/
def c4LimitError : JsError :=
  JsError.mk true "Request failed with status code 403"
    (some (QaseApiResponse.mk 403 "Forbidden"
      (some (ErrData.mk (some "You have reached your plan Limit of Active Runs")))))

/-- Concrete `runs.getRuns` payload with one active and one completed run,
used to witness the cleanup-and-retry path. -/
def c4RunsPayload : RunsResult :=
  RunsResult.mk 2
    (some [QaseRun.mk (some 11) (some "active"), QaseRun.mk (some 12) (some "complete")])

/-- Witness for C4: with a concrete 403 limit error, a retry whose SDK call
resolves without an id, and one active run to clean up, the trace is
create-run, list-runs, complete the active run, create-run again, and the
reporter ends in a thrown error. -/
theorem c4_limit_one_cleanup_one_retry_witness :
    isLimitOfActiveRunsError c4LimitError = .ok true ∧
    ((createQaseTestRun "PRJ" true (.error c4LimitError) (.ok none)
        (.ok (some c4RunsPayload)) (fun _ => .ok ())).1
      = [RemoteCall.createRun "PRJ", RemoteCall.getRuns "PRJ",
         RemoteCall.completeRun "PRJ" 11, RemoteCall.createRun "PRJ"] ∧
      ∃ e2, (createQaseTestRun "PRJ" true (.error c4LimitError) (.ok none)
        (.ok (some c4RunsPayload)) (fun _ => .ok ())).2 = .error e2) :=
  ⟨by decide,
   (c4_limit_one_cleanup_one_retry "PRJ" c4LimitError (.ok none) c4RunsPayload
      [QaseRun.mk (some 11) (some "active"), QaseRun.mk (some 12) (some "complete")]
      (fun _ => .ok ()) (by decide) rfl (by decide) (by decide)
      (fun _ => rfl)).1.trans (by decide),
   (c4_limit_one_cleanup_one_retry "PRJ" c4LimitError (.ok none) c4RunsPayload
      [QaseRun.mk (some 11) (some "active"), QaseRun.mk (some 12) (some "complete")]
      (fun _ => .ok ()) (by decide) rfl (by decide) (by decide)
      (fun _ => rfl)).2.2
     (fun id h => Option.noConfusion (Except.ok.inj h))⟩

/-- Concrete unclassified SDK failure (a 500 response) used for the
propagation claim. -/
def c8SdkError : JsError :=
  JsError.mk true "socket hang up"
    (some (QaseApiResponse.mk 500 "Internal Server Error" none))

/-- C8 counterexample: an unclassified SDK failure of the active-run listing
is not propagated verbatim — the catch block of `getRecentActiveTestRuns`
replaces the original error object with a new locally built `Error`, and the
bulk-upload catch block likewise throws a new wrapped error rather than the
original one. -/
theorem c8_counterexample :
    getRecentActiveTestRuns "PRJ" (.error c8SdkError)
      = .error (jsNewError
          "Couldn\x27t get active test runs for the \x27PRJ\x27 project.") ∧
    jsNewError "Couldn\x27t get active test runs for the \x27PRJ\x27 project."
      ≠ c8SdkError ∧
    (uploadResults "PRJ" (some 7) [] (.error c8SdkError)).2 ≠ .error c8SdkError := by
  refine ⟨rfl, by decide, by decide⟩

/-- C8 amended: unclassified remote-call failures are never silently
suppressed: project lookups re-throw the original error verbatim on any
classified non-404 response, run creation re-throws the original error
verbatim when the limit classifier says no, and a thrown value without a
usable `response` is re-thrown verbatim by `extractErrorResponse` itself —
but failures of the active-run listing, and response-carrying failures of
the bulk upload, are re-thrown as new locally built `Error` objects
describing the failure instead of the original object. -/
theorem c8_amended_propagation (projectCode : String) (e : JsError) :
    (∀ resp : QaseApiResponse, e.isErrorInstance = true → e.response = some resp →
      resp.status ≠ 404 → getProject (.error e) = .error e) ∧
    (isLimitOfActiveRunsError e = .ok false → handleCreateRunError e = .error e) ∧
    (e.response = none → extractErrorResponse e = .error e) ∧
    (getRecentActiveTestRuns projectCode (.error e)
      = .error (jsNewError ("Couldn\x27t get active test runs for the \x27"
          ++ projectCode ++ "\x27 project."))) ∧
    (∀ (runId : Nat) (results : List BufferedResult) (resp : QaseApiResponse),
      e.isErrorInstance = true → e.response = some resp →
      (uploadResults projectCode (some runId) results (.error e)).2
        = .error (jsNewError (uploadErrorMessage resp))) := by
  refine ⟨?_, ?_, ?_, rfl, ?_⟩
  · intro resp h1 h2 h3
    simp [getProject, extractErrorResponse, h1, h2, h3]
  · intro h
    simp [handleCreateRunError, h]
  · intro h
    cases hI : e.isErrorInstance <;> simp [extractErrorResponse, h, hI]
  · intro runId results resp h1 h2
    simp [uploadResults, extractErrorResponse, h1, h2]

/-- Witness for C8 amended at concrete errors: a 500-response error passes
through the project lookup and run creation verbatim, a bare thrown string
is re-thrown verbatim by `extractErrorResponse`, and the same 500 error is
wrapped by the active-run listing and the bulk upload. -/
theorem c8_amended_propagation_witness :
    (c8SdkError.isErrorInstance = true ∧
      getProject (.error c8SdkError) = .error c8SdkError) ∧
    (isLimitOfActiveRunsError c8SdkError = .ok false ∧
      handleCreateRunError c8SdkError = .error c8SdkError) ∧
    extractErrorResponse (JsError.mk false "thrown string" none)
      = .error (JsError.mk false "thrown string" none) ∧
    getRecentActiveTestRuns "PRJ" (.error c8SdkError)
      = .error (jsNewError
          "Couldn\x27t get active test runs for the \x27PRJ\x27 project.") ∧
    (uploadResults "PRJ" (some 7) [] (.error c8SdkError)).2
      = .error (jsNewError
          (uploadErrorMessage (QaseApiResponse.mk 500 "Internal Server Error" none))) :=
  ⟨⟨rfl, (c8_amended_propagation "PRJ" c8SdkError).1
      (QaseApiResponse.mk 500 "Internal Server Error" none) rfl rfl (by decide)⟩,
   ⟨by decide, (c8_amended_propagation "PRJ" c8SdkError).2.1 (by decide)⟩,
   (c8_amended_propagation "PRJ" (JsError.mk false "thrown string" none)).2.2.1 rfl,
   (c8_amended_propagation "PRJ" c8SdkError).2.2.2.1,
   (c8_amended_propagation "PRJ" c8SdkError).2.2.2.2 7 []
     (QaseApiResponse.mk 500 "Internal Server Error" none) rfl rfl⟩
